import Mathlib

/-!
Verification of the Powershop NZ data-acquisition client
(`custom_components/powershop_nz/api.py`).

The Python source is shallowly embedded below.  Conventions:

* Python floats are modelled as `ℚ` (the report cells and rate payloads hold
  plain finite decimal numerals; the special values `inf`/`nan` and numeric
  underscores accepted by Python's `float()` are elided, such cells count as
  non-numeric here).
* Python text is modelled as `List Char` for the parsing internals (so every
  definition is structurally recursive and kernel-executable) and as `String`
  for stored record fields.
* Python `dict`s are modelled as insertion-ordered association lists;
  assignment updates an existing key in place and appends a fresh key, exactly
  like CPython dicts.
* Fallible Python code is modelled with `Except`; an uncaught Python exception
  is an `Except.error`.
-/

namespace Powershop

/-! ## Python-style dynamic values

`prop.get(key)` in the source yields `None` for an absent key, a string, or a
number; `PyVal.vnone` collapses "absent key" and JSON `null`. -/

inductive PyVal where
  | vnone
  | vstr (s : String)
  | vint (n : Int)
deriving DecidableEq, Repr

/-- Python `str(x)`: `str(None) = "None"`, strings unchanged, ints printed. -/
def pyStr : PyVal → String
  | .vnone => "None"
  | .vstr s => s
  | .vint n => toString n

/-- Python truthiness of a `PyVal`: `None`, `""` and `0` are falsy. -/
def pyTruthy : PyVal → Bool
  | .vnone => false
  | .vstr s => decide (s ≠ "")
  | .vint n => decide (n ≠ 0)

/-! ## Character-level text utilities

These model the CPython string operations used by the parser
(`str.split`, `str.strip`, `in`).  `splitOnChar` keeps empty parts, as
`str.split(sep)` with an explicit separator does. -/

/-- `cs.split(sep)` for a one-character separator, keeping empty parts. -/
def splitOnChar (sep : Char) : List Char → List (List Char)
  | [] => [[]]
  | c :: rest =>
    let r := splitOnChar sep rest
    if c = sep then [] :: r
    else
      match r with
      | [] => [[c]]
      | g :: gs => (c :: g) :: gs

/-- The whitespace characters removed by Python `str.strip()` (ASCII part). -/
def isPySpace (c : Char) : Bool :=
  c = ' ' || c = '\t' || c = '\n' || c = '\r' || c = '\x0b' || c = '\x0c'

/-- Python `str.strip()`. -/
def pyStrip (cs : List Char) : List Char :=
  ((cs.dropWhile isPySpace).reverse.dropWhile isPySpace).reverse

/-- Python `"\t" in ln` for a one-character needle. -/
def containsChar (c : Char) (cs : List Char) : Bool :=
  cs.any (fun x => x = c)

/-- `text.splitlines()` restricted to `\n` / `\r\n` boundaries.  (A trailing
empty fragment that true `splitlines` omits is immaterial: the caller filters
blank lines.) -/
def splitLinesChars (cs : List Char) : List (List Char) :=
  (splitOnChar '\n' cs).map
    (fun l => match l.reverse with
              | '\r' :: rest => rest.reverse
              | _ => l)

/-! ## Python numeric literal parsing (`float(v)` on a stripped cell) -/

def digitsOnly (cs : List Char) : Bool := cs.all Char.isDigit

def digitsVal (cs : List Char) : Nat :=
  cs.foldl (fun n c => n * 10 + (c.toNat - 48)) 0

/-- Strip one optional leading sign, returning the sign as `1` or `-1`. -/
def parseSign : List Char → Int × List Char
  | '+' :: rest => (1, rest)
  | '-' :: rest => (-1, rest)
  | cs => (1, cs)

/-- Mantissa of a Python float literal: `123`, `123.`, `123.45`, `.45`. -/
def parseMantissa? (cs : List Char) : Option ℚ :=
  match splitOnChar '.' cs with
  | [intPart] =>
      if intPart ≠ [] ∧ digitsOnly intPart then some (digitsVal intPart) else none
  | [intPart, fracPart] =>
      if (intPart ≠ [] ∨ fracPart ≠ []) ∧ digitsOnly intPart ∧ digitsOnly fracPart then
        some ((digitsVal intPart : ℚ) + (digitsVal fracPart : ℚ) / ((10 : ℚ) ^ fracPart.length))
      else none
  | _ => none

/-- Signed decimal exponent. -/
def parseExpPart? (cs : List Char) : Option Int :=
  let p := parseSign cs
  if p.2 ≠ [] ∧ digitsOnly p.2 then some (p.1 * digitsVal p.2) else none

/-- Python `float(v)` on an already-stripped cell, for finite decimal
literals (optionally signed, optional fraction, optional exponent);
`none` models the `ValueError` branch. -/
def parseFloatChars? (cs : List Char) : Option ℚ :=
  let sp := parseSign cs
  let parts :=
    let pe := splitOnChar 'e' sp.2
    if pe.length = 1 then splitOnChar 'E' sp.2 else pe
  match parts with
  | [mant] => (parseMantissa? mant).map (fun q => (sp.1 : ℚ) * q)
  | [mant, ex] =>
      match parseMantissa? mant, parseExpPart? ex with
      | some m, some e => some ((sp.1 : ℚ) * m * (10 : ℚ) ^ e)
      | _, _ => none
  | _ => none

/-! ## Dates (`datetime.date`, `datetime.datetime.strptime`) -/

structure Date where
  year : Nat
  month : Nat
  day : Nat
deriving DecidableEq, Repr

def isLeap (y : Nat) : Bool :=
  (y % 4 = 0 && y % 100 ≠ 0) || y % 400 = 0

def daysInMonth (y m : Nat) : Nat :=
  if m = 2 then (if isLeap y then 29 else 28)
  else if m = 4 ∨ m = 6 ∨ m = 9 ∨ m = 11 then 30
  else 31

/-- `%d`: one or two digits, value 1–31. -/
def parseDayField? (cs : List Char) : Option Nat :=
  if (cs.length = 1 ∨ cs.length = 2) ∧ digitsOnly cs then
    let v := digitsVal cs
    if 1 ≤ v ∧ v ≤ 31 then some v else none
  else none

/-- `%m`: one or two digits, value 1–12. -/
def parseMonthField? (cs : List Char) : Option Nat :=
  if (cs.length = 1 ∨ cs.length = 2) ∧ digitsOnly cs then
    let v := digitsVal cs
    if 1 ≤ v ∧ v ≤ 12 then some v else none
  else none

/-- `%Y`: exactly four digits; year 0 is below `datetime.MINYEAR`. -/
def parseYearField? (cs : List Char) : Option Nat :=
  if cs.length = 4 ∧ digitsOnly cs then
    let v := digitsVal cs
    if 1 ≤ v then some v else none
  else none

/-- `datetime.date(y, m, d)` validation of the day against the month. -/
def mkDate? (y m d : Nat) : Option Date :=
  if d ≤ daysInMonth y m then some ⟨y, m, d⟩ else none

/-- `datetime.datetime.strptime(s, "%d/%m/%Y").date()`. -/
def parseDateDMY? (cs : List Char) : Option Date :=
  match splitOnChar '/' cs with
  | [ds, ms, ys] =>
      match parseDayField? ds, parseMonthField? ms, parseYearField? ys with
      | some d, some m, some y => mkDate? y m d
      | _, _, _ => none
  | _ => none

/-- `datetime.datetime.strptime(s, "%Y-%m-%d").date()`. -/
def parseDateYMD? (cs : List Char) : Option Date :=
  match splitOnChar '-' cs with
  | [ys, ms, ds] =>
      match parseDayField? ds, parseMonthField? ms, parseYearField? ys with
      | some d, some m, some y => mkDate? y m d
      | _, _, _ => none
  | _ => none

/-- Ordering on `datetime.date` values (year, then month, then day). -/
def dateLE (a b : Date) : Prop :=
  a.year < b.year ∨
    (a.year = b.year ∧ (a.month < b.month ∨ (a.month = b.month ∧ a.day ≤ b.day)))

instance : DecidableRel dateLE := fun a b => by unfold dateLE; infer_instance

/-- `d.strftime("%Y-%m-%d")`: zero-padded components. -/
def padNum (width n : Nat) : String :=
  String.mk (List.replicate (width - (toString n).length) '0') ++ toString n

def formatDate (d : Date) : String :=
  padNum 4 d.year ++ "-" ++ padNum 2 d.month ++ "-" ++ padNum 2 d.day

/-! ## Exceptions (`api.py` lines 20–43) and the request wrapper -/

/-- The Python exception kinds relevant to the client.  `psAuth`, `psComm` and
`psGeneral` are `PowershopApiClientAuthenticationError`,
`PowershopApiClientCommunicationError` and `PowershopApiClientError`;
`timeoutErr` is `TimeoutError`, `clientErr` covers
`aiohttp.ClientError` / `socket.gaierror` (including the
`ClientResponseError` raised by `response.raise_for_status()`), and
`otherExc` covers the remaining built-ins (`ValueError`, `IndexError`, …). -/
inductive PyExc where
  | psAuth (msg : String)
  | psComm (msg : String)
  | psGeneral (msg : String)
  | timeoutErr (msg : String)
  | clientErr (msg : String)
  | otherExc (msg : String)
deriving DecidableEq, Repr

/-- Python `str(exception)`: the message. -/
def pyExcMessage : PyExc → String
  | .psAuth m | .psComm m | .psGeneral m | .timeoutErr m | .clientErr m | .otherExc m => m

/-- `_verify_response_or_raise` (api.py 36–43): 401/403 raise
`PowershopApiClientAuthenticationError("Invalid credentials")`; any other
error status makes `raise_for_status()` raise an `aiohttp` client error. -/
def verifyResponseOrRaise (status : Nat) : Except PyExc Unit :=
  if status = 401 ∨ status = 403 then .error (.psAuth "Invalid credentials")
  else if 400 ≤ status then .error (.clientErr ("HTTP error " ++ toString status))
  else .ok ()

/-- What happened when an HTTP request was awaited: either a response arrived
(with status and decoded body), or the await itself raised. -/
inductive HttpOutcome (α : Type) where
  | response (status : Nat) (body : α)
  | raised (e : PyExc)

def isTimeoutError : PyExc → Bool
  | .timeoutErr _ => true
  | _ => false

def isClientOrGaiError : PyExc → Bool
  | .clientErr _ => true
  | _ => false

/-- The `except` chain of `_api_wrapper` (api.py 425–439), applied to any
exception escaping its `try` block.  Note that the final broad
`except Exception` also catches the client's own
`PowershopApiClientAuthenticationError` and re-raises it as a plain
`PowershopApiClientError`. -/
def apiWrapperWrap (e : PyExc) : PyExc :=
  if isTimeoutError e then
    .psComm ("Timeout error fetching information - " ++ pyExcMessage e)
  else if isClientOrGaiError e then
    .psComm ("Error fetching information - " ++ pyExcMessage e)
  else
    .psGeneral ("Something really wrong happened! - " ++ pyExcMessage e)

/-- `_api_wrapper` (api.py 376–439): perform the request,
`_verify_response_or_raise` the response, decode the body; every exception
raised inside the `try` goes through the `except` chain. -/
def apiWrapper {α : Type} (o : HttpOutcome α) : Except PyExc α :=
  match o with
  | .raised e => .error (apiWrapperWrap e)
  | .response status body =>
      match verifyResponseOrRaise status with
      | .error e => .error (apiWrapperWrap e)
      | .ok _ => .ok body

/-! ## Account payload and property flattening (api.py 268–288) -/

/-- One entry of `account["properties"]`; fields are fetched with `.get`, so
an absent key is `PyVal.vnone`. -/
structure PropEntry where
  consumer_id : PyVal
  name : PyVal
  connection_number : PyVal
deriving DecidableEq, Repr

structure Account where
  number : PyVal
  name : PyVal
  properties : List PropEntry
deriving DecidableEq, Repr

/-- The decoded `accounts` payload; `accounts.get("data", {}).get("accounts", [])`
collapses to this list (absent keys give `[]`). -/
structure AccountsPayload where
  accounts : List Account
deriving DecidableEq, Repr

/-- One flattened property dict (api.py 280–288).  `consumer_id` is
`str(prop.get("consumer_id"))`, hence a `String`; the other fields are stored
raw. -/
structure Property where
  consumer_id : String
  name : PyVal
  connection_number : PyVal
  account_number : PyVal
  account_name : PyVal
deriving DecidableEq, Repr

/-- api.py 274–288: flatten all accounts into the property list, skipping a
property only when `str(prop.get("consumer_id"))` is falsy (the empty
string). -/
def flattenProperties (ap : AccountsPayload) : List Property :=
  ap.accounts.foldl
    (fun acc account =>
      acc ++ account.properties.filterMap
        (fun prop =>
          let cid := pyStr prop.consumer_id
          if cid = "" then none
          else some { consumer_id := cid
                      name := prop.name
                      connection_number := prop.connection_number
                      account_number := account.number
                      account_name := account.name }))
    []

/-! ## Tabular usage report parsing (api.py 166–259)

The network part of `async_get_usage_report` is modelled separately below
(`asyncGetUsageReport`); here is the pure parse of the downloaded text. -/

structure ReportRow where
  icp : String
  meter_number : String
  element : String
  date : Date
  values_kwh : List ℚ
deriving DecidableEq, Repr

/-- The four resolved header column indices (api.py 207–220). -/
structure ColIdx where
  idxIcp : Nat
  idxMeter : Nat
  idxElement : Nat
  idxDate : Nat
deriving DecidableEq, Repr

/-- `header.index(name)` for the four required columns; `none` when any of the
four lookups raises `ValueError`. -/
def resolveHeader (cells : List (List Char)) : Option ColIdx :=
  match cells.findIdx? (fun h => h = "ICP".data),
        cells.findIdx? (fun h => h = "Meter number".data),
        cells.findIdx? (fun h => h = "Meter element".data),
        cells.findIdx? (fun h => h = "Date".data) with
  | some a, some b, some c, some d => some ⟨a, b, c, d⟩
  | _, _, _, _ => none

/-- `ln.split("\t") if "\t" in ln else ln.split(",")` (api.py 224). -/
def partsOfLine (ln : List Char) : List (List Char) :=
  if containsChar '\t' ln then splitOnChar '\t' ln else splitOnChar ',' ln

/-- The interval-cell loop (api.py 237–246): blank cells are skipped,
non-numeric cells append `0.0`, numeric cells append their value. -/
def parseCells : List (List Char) → List ℚ
  | [] => []
  | c :: rest =>
      let v := pyStrip c
      if v = [] then parseCells rest
      else
        match parseFloatChars? v with
        | some q => q :: parseCells rest
        | none => 0 :: parseCells rest

/-- api.py 247–251: pad with zeros below 48 values, truncate above 48. -/
def fitTo48 (vs : List ℚ) : List ℚ :=
  if vs.length < 48 then vs ++ List.replicate (48 - vs.length) 0
  else if vs.length > 48 then vs.take 48
  else vs

/-- `parts[i]`; `IndexError` when out of range. -/
def cellAt (parts : List (List Char)) (i : Nat) : Except PyExc (List Char) :=
  match parts.get? i with
  | some s => .ok s
  | none => .error (.otherExc "IndexError: list index out of range")

/-- api.py 231–236: `strptime(dstr, "%d/%m/%Y")`, falling back to
`strptime(dstr, "%Y-%m-%d")`; a second failure raises `ValueError` (the
fallback call is not guarded). -/
def resolveDateCell (dstr : List Char) : Except PyExc Date :=
  match parseDateDMY? dstr with
  | some d => .ok d
  | none =>
      match parseDateYMD? dstr with
      | some d => .ok d
      | none => .error (.otherExc "ValueError: time data does not match date format")

/-- One data line of the report (api.py 223–258): `.ok none` when the line is
dropped for being too short, `.ok (some row)` when a row is emitted, and
`.error` when a cell access or the date parse raises. -/
def parseDataLine (idx : ColIdx) (ln : List Char) : Except PyExc (Option ReportRow) :=
  let parts := partsOfLine ln
  if parts.length ≤ idx.idxDate + 1 then .ok none
  else
    match cellAt parts idx.idxIcp, cellAt parts idx.idxMeter,
          cellAt parts idx.idxElement, cellAt parts idx.idxDate with
    | .ok icp, .ok meter, .ok elemCell, .ok dstr =>
        match resolveDateCell (pyStrip dstr) with
        | .ok d =>
            .ok (some { icp := String.mk (pyStrip icp)
                        meter_number := String.mk (pyStrip meter)
                        element := String.mk (pyStrip elemCell)
                        date := d
                        values_kwh := fitTo48 (parseCells (parts.drop (idx.idxDate + 1))) })
        | .error e => .error e
    | .error e, _, _, _ => .error e
    | _, .error e, _, _ => .error e
    | _, _, .error e, _ => .error e
    | _, _, _, .error e => .error e

/-- The data-line loop: an exception raised for one line propagates and
discards every row. -/
def parseDataLines (idx : ColIdx) : List (List Char) → Except PyExc (List ReportRow)
  | [] => .ok []
  | ln :: rest =>
      match parseDataLine idx ln with
      | .error e => .error e
      | .ok none => parseDataLines idx rest
      | .ok (some row) =>
          match parseDataLines idx rest with
          | .error e => .error e
          | .ok rows => .ok (row :: rows)

/-- The full parse of the downloaded report text (api.py 200–259). -/
def parseReport (text : List Char) : Except PyExc (List ReportRow) :=
  let lines := (splitLinesChars text).filter (fun ln => pyStrip ln ≠ [])
  match lines with
  | [] => .ok []
  | headerLine :: dataLines =>
      match resolveHeader (splitOnChar '\t' headerLine) with
      | some idx => parseDataLines idx dataLines
      | none =>
          match resolveHeader (splitOnChar ',' headerLine) with
          | some idx => parseDataLines idx dataLines
          | none => .error (.otherExc "ValueError: required column is not in header")

/-- The CSV download `try` block (api.py 188–198): any exception while
fetching — including the auth error from `_verify_response_or_raise` and the
timeout — is re-raised as `PowershopApiClientCommunicationError`. -/
def csvFetch (o : HttpOutcome String) : Except PyExc String :=
  match o with
  | .raised e =>
      .error (.psComm ("Error downloading usage report - " ++ pyExcMessage e))
  | .response status text =>
      match verifyResponseOrRaise status with
      | .error e =>
          .error (.psComm ("Error downloading usage report - " ++ pyExcMessage e))
      | .ok _ => .ok text

/-- `async_get_usage_report` (api.py 166–259): web login, download, parse. -/
def asyncGetUsageReport (webLoginOk : Bool) (o : HttpOutcome String) :
    Except PyExc (List ReportRow) :=
  if !webLoginOk then
    .error (.psAuth "Could not login to secure site for CSV report")
  else
    match csvFetch o with
    | .error e => .error e
    | .ok text => parseReport text.data

/-! ## Insertion-ordered dictionaries

CPython dicts preserve insertion order; assignment to an existing key updates
it in place, assignment to a fresh key appends it. -/

def alistUpdate {κ ν : Type} [DecidableEq κ] (k : κ) (v : ν) :
    List (κ × ν) → List (κ × ν)
  | [] => [(k, v)]
  | p :: rest => if p.1 = k then (k, v) :: rest else p :: alistUpdate k v rest

/-- `m.get(k)` / `m[k]` lookup. -/
def alistGet? {κ ν : Type} [DecidableEq κ] (k : κ) (m : List (κ × ν)) : Option ν :=
  (m.find? (fun p => p.1 = k)).map Prod.snd

/-! ## Rate extraction (api.py 299–327) -/

/-- One entry of a special rate's `"rates"` list: `rate.get("month")` and
`rate.get("incl", []) or []`.  `incl` holds JSON numbers, on which `float()`
cannot fail. -/
structure RateEntry where
  month : PyVal
  incl : List ℚ
deriving DecidableEq, Repr

/-- One entry of the `"special"` list: `item.get("meter_number")` and
`first_with_meter.get("rates", []) or []`. -/
structure SpecialEntry where
  meter_number : PyVal
  rates : List RateEntry
deriving DecidableEq, Repr

/-- The decoded rates payload;
`(rates_payload or {}).get("data", {}).get("rates", {}).get("special", []) or []`
collapses to this list. -/
structure RatesPayload where
  special : List SpecialEntry
deriving DecidableEq, Repr

/-- api.py 307–311: the first entry of the special list whose
`meter_number` is truthy. -/
def firstWithMeter (specials : List SpecialEntry) : Option SpecialEntry :=
  specials.find? (fun item => pyTruthy item.meter_number)

/-- api.py 314–315: the first rate whose `month` equals the current month
label (the loop breaks at the first match). -/
def monthRate? (fw : SpecialEntry) (label : String) : Option RateEntry :=
  fw.rates.find? (fun rate => rate.month = PyVal.vstr label)

/-- api.py 300–323: `special_incl_dollars` for one property.  The whole
extraction sits in a `try` whose handler sets the value to `None`, so a failed
rates fetch yields `none`; within a fetched payload the rule is: first special
entry with a truthy meter number, its rate for the current month, the first
`incl` value divided by 100 — any absence yields `none`. -/
def extractSpecialIncl (res : Except PyExc RatesPayload) (label : String) : Option ℚ :=
  match res with
  | .error _ => none
  | .ok payload =>
      match firstWithMeter payload.special with
      | none => none
      | some fw =>
          match monthRate? fw label with
          | none => none
          | some rate =>
              match rate.incl with
              | [] => none
              | v :: _ => some (v / 100)

/-- The per-property rate summary dict (api.py 324–327). -/
structure RateSummary where
  month_label : String
  special_incl_dollars_current_month : Option ℚ
deriving DecidableEq, Repr

/-! ## The intermediate ICP mapping (api.py 337–346) -/

/-- `icp -> element -> date -> values_kwh`, as nested insertion-ordered
dicts. -/
abbrev DateMap : Type := List (Date × List ℚ)
abbrev ElemMap : Type := List (String × DateMap)
abbrev IcpMap : Type := List (String × ElemMap)

/-- `icp_map.setdefault(icp, {}).setdefault(elem, {})[d] = list(vals)`. -/
def icpMapInsert (icp elem : String) (d : Date) (vals : List ℚ) (m : IcpMap) : IcpMap :=
  let em : ElemMap := (alistGet? icp m).getD []
  let dm : DateMap := (alistGet? elem em).getD []
  alistUpdate icp (alistUpdate elem (alistUpdate d vals dm) em) m

/-- api.py 338–346: fold the parsed rows into the ICP mapping, skipping rows
whose `icp` or `element` is falsy (`row["date"]` is a date object and always
truthy). -/
def buildIcpMap (rows : List ReportRow) : IcpMap :=
  rows.foldl
    (fun m row =>
      if row.icp = "" ∨ row.element = "" then m
      else icpMapInsert row.icp row.element row.date row.values_kwh m)
    []

/-- Lookup through the three nested dicts. -/
def icpMapLookup (m : IcpMap) (icp elem : String) (d : Date) : Option (List ℚ) :=
  match alistGet? icp m with
  | none => none
  | some em =>
      match alistGet? elem em with
      | none => none
      | some dm => alistGet? d dm

/-! ## Per-property element series (api.py 348–366) -/

/-- One entry of an element's `usages` list:
`{"date": d.strftime("%Y-%m-%d"), "iso8601_date": ..., "usage": usage_wh}`. -/
structure DaySeries where
  date : String
  iso8601_date : String
  usage : List ℚ
deriving DecidableEq, Repr

/-- An element's value in the output: `{"usages": usages_list}`. -/
structure ElementSeries where
  usages : List DaySeries
deriving DecidableEq, Repr

/-- Python `round(x, ndigits)`: round half to even at `ndigits` decimal
places (exact decimal arithmetic; binary floating-point representation error
is elided). -/
def roundHalfEven (y : ℚ) : ℤ :=
  let fl := ⌊y⌋
  if y - fl < 1 / 2 then fl
  else if (1 : ℚ) / 2 < y - fl then fl + 1
  else if fl % 2 = 0 then fl else fl + 1

def pyRound (x : ℚ) (ndigits : Nat) : ℚ :=
  (roundHalfEven (x * (10 : ℚ) ^ ndigits) : ℚ) / (10 : ℚ) ^ ndigits

/-- `round(v * 1000.0, 3)` (api.py 359). -/
def kwhToWh (v : ℚ) : ℚ := pyRound (v * 1000) 3

/-- Sort `date_map.items()` as `sorted` does: by the date key (dict keys are
unique, so the tuple comparison never reaches the values). -/
def dmLE (p q : Date × List ℚ) : Prop := dateLE p.1 q.1

instance : DecidableRel dmLE := fun p q => by unfold dmLE; infer_instance

def sortByDate (dm : DateMap) : List (Date × List ℚ) :=
  List.insertionSort dmLE dm

/-- api.py 355–365: one element's day list, date-ascending, values converted
from kWh to Wh. -/
def seriesOfDateMap (dm : DateMap) : ElementSeries :=
  { usages :=
      (sortByDate dm).map
        (fun p =>
          { date := formatDate p.1
            iso8601_date := formatDate p.1
            usage := p.2.map kwhToWh }) }

/-- api.py 351–365: the element map for one property.
`element_map = icp_map.get(icp, {}) if icp else {}` — an `icp` that is falsy,
or not a string equal to some report ICP, gives the empty dict. -/
def elementsOut (im : IcpMap) (prop : Property) : List (String × ElementSeries) :=
  let em : ElemMap :=
    if pyTruthy prop.connection_number then
      match prop.connection_number with
      | .vstr s => (alistGet? s im).getD []
      | _ => []
    else []
  em.map (fun p => (p.1, seriesOfDateMap p.2))

/-! ## The refresh cycle `async_get_data` (api.py 261–374) -/

/-- The usage payload returned by `async_get_hourly_usage` is stored without
inspection; an abstract token stands for it. -/
abbrev UsagePayload : Type := Nat

/-- A value of the `usages` dict: either the fetched payload or the error
marker `{"error": str(ex)}` (api.py 295–298). -/
inductive UsageVal where
  | payload (u : UsagePayload)
  | errorMarker (msg : String)
deriving DecidableEq

/-- Everything the environment decides during one refresh cycle: the outcome
of each network interaction and the current month label
(`datetime.datetime.now().strftime("%b")`).  Per-property fetch results are
indexed by consumer id; their `Except.error` message is `str(ex)` of the
exception the fetch raised. -/
structure CycleEnv where
  loginOutcome : HttpOutcome Unit
  accountsOutcome : HttpOutcome AccountsPayload
  usageOutcome : String → Except String UsagePayload
  ratesOutcome : String → Except PyExc RatesPayload
  webLoginOk : Bool
  csvOutcome : HttpOutcome String
  monthLabel : String

/-- `async_get_accounts` (api.py 90–97): `async_login` then the signed
`accounts` request, both through `_api_wrapper`. -/
def asyncGetAccounts (env : CycleEnv) : Except PyExc AccountsPayload :=
  match apiWrapper env.loginOutcome with
  | .error e => .error e
  | .ok _ => apiWrapper env.accountsOutcome

/-- The `usages[cid]` value for one property (api.py 294–298). -/
def usageValOf (env : CycleEnv) (cid : String) : UsageVal :=
  match env.usageOutcome cid with
  | .ok u => .payload u
  | .error msg => .errorMarker msg

/-- The `rates_summary[cid]` value for one property (api.py 299–327). -/
def rateSummaryOf (env : CycleEnv) (cid : String) : RateSummary :=
  { month_label := env.monthLabel
    special_incl_dollars_current_month :=
      extractSpecialIncl (env.ratesOutcome cid) env.monthLabel }

/-- The per-property loop of api.py 292–327.  The source fills `usages` and
`rates_summary` in one pass over `properties`; the two dict assignments in
the loop body are independent, so they are rendered as two folds. -/
def buildUsages (env : CycleEnv) (props : List Property) : List (String × UsageVal) :=
  props.foldl (fun acc prop => alistUpdate prop.consumer_id (usageValOf env prop.consumer_id) acc) []

def buildRates (env : CycleEnv) (props : List Property) : List (String × RateSummary) :=
  props.foldl (fun acc prop => alistUpdate prop.consumer_id (rateSummaryOf env prop.consumer_id) acc) []

/-- api.py 329–335: the report fetch+parse under `try`, degraded to `[]` on
any failure. -/
def effectiveCsvRows (env : CycleEnv) : List ReportRow :=
  match asyncGetUsageReport env.webLoginOk env.csvOutcome with
  | .ok rows => rows
  | .error _ => []

/-- api.py 349–366: `elements_by_property`. -/
def buildElements (im : IcpMap) (props : List Property) :
    List (String × List (String × ElementSeries)) :=
  props.foldl (fun acc prop => alistUpdate prop.consumer_id (elementsOut im prop) acc) []

/-- The dict returned by `async_get_data` (api.py 368–374). -/
structure Aggregate where
  properties : List Property
  usages : List (String × UsageVal)
  rates : List (String × RateSummary)
  elements : List (String × List (String × ElementSeries))
  raw_accounts : AccountsPayload

/-- The body of `async_get_data` after the account list is in hand
(api.py 268–374). -/
def asyncGetDataCore (accounts : AccountsPayload) (env : CycleEnv) : Aggregate :=
  let props := flattenProperties accounts
  let im := buildIcpMap (effectiveCsvRows env)
  { properties := props
    usages := buildUsages env props
    rates := buildRates env props
    elements := buildElements im props
    raw_accounts := accounts }

/-- `async_get_data` (api.py 261–374): the account fetch is not guarded, so
its failure aborts the cycle; everything afterwards is total. -/
def asyncGetData (env : CycleEnv) : Except PyExc Aggregate :=
  match asyncGetAccounts env with
  | .error e => .error e
  | .ok accounts => .ok (asyncGetDataCore accounts env)

/-- Decidable equality of `Except` results, used to evaluate the embedding on
concrete inputs. -/
def exceptDecEq {ε α : Type} [DecidableEq ε] [DecidableEq α] :
    DecidableEq (Except ε α) := fun a b =>
  match a, b with
  | .error x, .error y =>
      if h : x = y then .isTrue (by rw [h]) else .isFalse (by simp [h])
  | .error _, .ok _ => .isFalse (by simp)
  | .ok _, .error _ => .isFalse (by simp)
  | .ok x, .ok y =>
      if h : x = y then .isTrue (by rw [h]) else .isFalse (by simp [h])

instance {ε α : Type} [DecidableEq ε] [DecidableEq α] : DecidableEq (Except ε α) :=
  exceptDecEq

/-! ## Dictionary lemmas -/

theorem alistGet?_update {κ ν : Type} [DecidableEq κ] (k k2 : κ) (v : ν) (m : List (κ × ν)) :
    alistGet? k2 (alistUpdate k v m) = if k2 = k then some v else alistGet? k2 m := by
  induction m with
  | nil =>
      simp only [alistUpdate, alistGet?, List.find?]
      by_cases h : k = k2 <;> simp [h] <;> simp [Ne.symm h, eq_comm] at *
  | cons p rest ih =>
      simp only [alistUpdate]
      by_cases h : p.1 = k
      · subst h
        by_cases h2 : k2 = p.1 <;> simp [alistGet?, List.find?, h2, eq_comm]
      · by_cases h2 : k2 = k
        · subst h2
          simp only [alistGet?, List.find?] at *
          simp [if_neg h, h, Ne.symm h]
          simpa [alistGet?] using ih
        · simp only [alistGet?, List.find?] at *
          by_cases h3 : p.1 = k2 <;> simp [h, h3, h2] <;> simpa [alistGet?, h2] using ih

/-- The last element of `l` (scanning from the right) whose key is `k`. -/
theorem alistGet?_foldl_update {κ ν π : Type} [DecidableEq κ] (key : π → κ) (f : π → ν)
    (l : List π) (init : List (κ × ν)) (k : κ) :
    alistGet? k (l.foldl (fun acc p => alistUpdate (key p) (f p) acc) init) =
      match l.reverse.find? (fun p => key p = k) with
      | some p => some (f p)
      | none => alistGet? k init := by
  induction l using List.reverseRecOn generalizing init with
  | nil => simp
  | append_singleton l p ih =>
      rw [List.foldl_append, List.foldl_cons, List.foldl_nil, alistGet?_update,
        List.reverse_append, List.reverse_singleton, List.singleton_append, List.find?_cons]
      by_cases h : key p = k
      · simp [h, eq_comm]
      · simp only [decide_eq_true_eq] at *
        simp [h, ih, Ne.symm h]

theorem alistGet?_foldl_update_isSome {κ ν π : Type} [DecidableEq κ] (key : π → κ) (f : π → ν)
    (l : List π) (k : κ) :
    (alistGet? k (l.foldl (fun acc p => alistUpdate (key p) (f p) acc) [])).isSome ↔
      k ∈ l.map key := by
  rw [alistGet?_foldl_update]
  rcases hfind : l.reverse.find? (fun p => key p = k) with _ | p
  · rw [List.find?_eq_none] at hfind
    simp only [alistGet?, List.find?, Option.isSome_none]
    constructor
    · intro h; exact absurd h (by simp)
    · intro h
      rcases List.mem_map.mp h with ⟨p, hp, hk⟩
      exact absurd (by simpa using hk) (by simpa using hfind p (List.mem_reverse.mpr hp))
  · simp only [Option.isSome_some, true_iff]
    have hp := List.mem_reverse.mp (List.mem_of_find?_eq_some hfind)
    have hk : key p = k := by simpa using List.find?_some hfind
    exact List.mem_map.mpr ⟨p, hp, hk⟩

theorem alistGet?_foldl_update_of_mem {κ ν π : Type} [DecidableEq κ] (key : π → κ) (g : κ → ν)
    (l : List π) (k : κ) (h : k ∈ l.map key) :
    alistGet? k (l.foldl (fun acc p => alistUpdate (key p) (g (key p)) acc) []) = some (g k) := by
  rw [alistGet?_foldl_update]
  rcases hfind : l.reverse.find? (fun p => key p = k) with _ | p
  · rw [List.find?_eq_none] at hfind
    rcases List.mem_map.mp h with ⟨p, hp, hk⟩
    exact absurd (by simpa using hk) (by simpa using hfind p (List.mem_reverse.mpr hp))
  · have hk : key p = k := by simpa using List.find?_some hfind
    simp [hk]

theorem alistGet?_nil {κ ν : Type} [DecidableEq κ] (k : κ) : alistGet? (ν := ν) k [] = none := rfl

theorem icpMapLookup_insert (icp elem : String) (d : Date) (vals : List ℚ) (m : IcpMap)
    (icp2 elem2 : String) (d2 : Date) :
    icpMapLookup (icpMapInsert icp elem d vals m) icp2 elem2 d2 =
      if icp2 = icp ∧ elem2 = elem ∧ d2 = d then some vals
      else icpMapLookup m icp2 elem2 d2 := by
  by_cases h1 : icp2 = icp
  · subst h1
    by_cases h2 : elem2 = elem
    · subst h2
      by_cases h3 : d2 = d
      · subst h3
        simp [icpMapInsert, icpMapLookup, alistGet?_update]
      · rcases hm : alistGet? icp2 m with _ | em
        · simp [icpMapInsert, icpMapLookup, alistGet?_update, hm, h3, alistGet?_nil]
        · rcases he : alistGet? elem2 em with _ | dm
          · simp [icpMapInsert, icpMapLookup, alistGet?_update, hm, he, h3, alistGet?_nil]
          · simp [icpMapInsert, icpMapLookup, alistGet?_update, hm, he, h3]
    · rcases hm : alistGet? icp2 m with _ | em
      · simp [icpMapInsert, icpMapLookup, alistGet?_update, hm, h2, alistGet?_nil]
      · simp [icpMapInsert, icpMapLookup, alistGet?_update, hm, h2]
  · simp [icpMapInsert, icpMapLookup, alistGet?_update, h1]

theorem icpMapLookup_buildIcpMap (rows : List ReportRow) (icp elem : String) (d : Date)
    (hicp : icp ≠ "") (helem : elem ≠ "") :
    icpMapLookup (buildIcpMap rows) icp elem d =
      (rows.reverse.find?
          (fun r => r.icp = icp ∧ r.element = elem ∧ r.date = d)).map
        (fun r => r.values_kwh) := by
  suffices h : ∀ (m : IcpMap),
      icpMapLookup
          (rows.foldl
            (fun acc row =>
              if row.icp = "" ∨ row.element = "" then acc
              else icpMapInsert row.icp row.element row.date row.values_kwh acc)
            m) icp elem d =
        match rows.reverse.find? (fun r => r.icp = icp ∧ r.element = elem ∧ r.date = d) with
        | some r => some r.values_kwh
        | none => icpMapLookup m icp elem d by
    rw [buildIcpMap, h []]
    simp only [Bool.decide_and]
    generalize List.find? _ rows.reverse = o
    cases o <;> simp [icpMapLookup, alistGet?_nil]
  intro m
  induction rows using List.reverseRecOn generalizing m with
  | nil => simp
  | append_singleton l r ih =>
      rw [List.foldl_append, List.foldl_cons, List.foldl_nil,
        List.reverse_append, List.reverse_singleton, List.singleton_append, List.find?_cons]
      by_cases hmatch : r.icp = icp ∧ r.element = elem ∧ r.date = d
      · obtain ⟨h1, h2, h3⟩ := hmatch
        have hne : ¬(r.icp = "" ∨ r.element = "") := by
          rw [h1, h2]
          simp [hicp, helem]
        rw [if_neg hne, icpMapLookup_insert]
        simp [h1, h2, h3]
      · have hp : decide (r.icp = icp ∧ r.element = elem ∧ r.date = d) = false := by
          simpa using hmatch
        simp only [hp]
        by_cases hskip : r.icp = "" ∨ r.element = ""
        · rw [if_pos hskip, ih]
        · rw [if_neg hskip, icpMapLookup_insert, ih]
          have hns : ¬(icp = r.icp ∧ elem = r.element ∧ d = r.date) := fun hcon =>
            hmatch ⟨hcon.1.symm, hcon.2.1.symm, hcon.2.2.symm⟩
          simp [hns]

/-! ## Parser lemmas -/

/-- The cell loop, declaratively: blank cells are dropped, non-blank cells
contribute their parsed value, defaulting to `0` for non-numeric text. -/
theorem parseCells_eq_filterMap (cells : List (List Char)) :
    parseCells cells =
      cells.filterMap
        (fun c =>
          if pyStrip c = [] then none
          else some ((parseFloatChars? (pyStrip c)).getD 0)) := by
  induction cells with
  | nil => rfl
  | cons c rest ih =>
      rw [List.filterMap_cons]
      by_cases hb : pyStrip c = []
      · simp only [parseCells, hb, if_pos rfl, ih]
        simp [hb]
      · rcases hf : parseFloatChars? (pyStrip c) with _ | q
        · simp [parseCells, hb, hf, ih]
        · simp [parseCells, hb, hf, ih]

theorem fitTo48_length (vs : List ℚ) : (fitTo48 vs).length = 48 := by
  unfold fitTo48
  split
  · simp only [List.length_append, List.length_replicate]
    omega
  · split
    · simp only [List.length_take]
      omega
    · omega

/-- Padding and truncation in one formula. -/
theorem fitTo48_eq_take (vs : List ℚ) :
    fitTo48 vs = (vs ++ List.replicate 48 0).take 48 := by
  unfold fitTo48
  rw [List.take_append_eq_append_take, List.take_replicate]
  split
  · rw [List.take_of_length_le (by omega)]
    have hmin : min (48 - vs.length) 48 = 48 - vs.length := by omega
    rw [hmin]
  · split
    · have h0 : 48 - vs.length = 0 := by omega
      rw [h0]
      simp
    · have h0 : 48 - vs.length = 0 := by omega
      rw [h0, List.take_of_length_le (by omega)]
      simp

theorem parseDataLine_values (idx : ColIdx) (ln : List Char) (row : ReportRow)
    (h : parseDataLine idx ln = .ok (some row)) :
    row.values_kwh = fitTo48 (parseCells ((partsOfLine ln).drop (idx.idxDate + 1))) := by
  simp only [parseDataLine] at h
  split at h
  · exact absurd h (by simp)
  · split at h
    · split at h
      · injection h with h2
        injection h2 with h3
        rw [← h3]
      · exact absurd h (by simp)
    all_goals exact absurd h (by simp)

theorem parseDataLines_values_length (idx : ColIdx) (lines : List (List Char))
    (rows : List ReportRow) (h : parseDataLines idx lines = .ok rows) :
    ∀ r ∈ rows, r.values_kwh.length = 48 := by
  induction lines generalizing rows with
  | nil =>
      unfold parseDataLines at h
      injection h with h2
      subst h2
      intro r hr
      exact absurd hr (by simp)
  | cons ln rest ih =>
      unfold parseDataLines at h
      split at h
      · exact absurd h (by simp)
      · exact ih rows h
      · rename_i row hline
        split at h
        · exact absurd h (by simp)
        · rename_i rows2 hrest
          injection h with h2
          subst h2
          intro r hr
          rcases List.mem_cons.mp hr with hr | hr
          · subst hr
            rw [parseDataLine_values idx ln r hline]
            exact fitTo48_length _
          · exact ih rows2 hrest r hr

theorem parseReport_values_length (text : List Char) (rows : List ReportRow)
    (h : parseReport text = .ok rows) : ∀ r ∈ rows, r.values_kwh.length = 48 := by
  simp only [parseReport] at h
  split at h
  · injection h with h2
    subst h2
    intro r hr
    exact absurd hr (by simp)
  · split at h
    · exact parseDataLines_values_length _ _ _ h
    · split at h
      · exact parseDataLines_values_length _ _ _ h
      · exact absurd h (by simp)

/-! ## Sortedness infrastructure for the date-keyed series -/

theorem dateLE_total (a b : Date) : dateLE a b ∨ dateLE b a := by
  unfold dateLE
  omega

theorem dateLE_trans (a b c : Date) (h1 : dateLE a b) (h2 : dateLE b c) : dateLE a c := by
  unfold dateLE at *
  omega

instance : IsTotal (Date × List ℚ) dmLE := ⟨fun a b => dateLE_total a.1 b.1⟩

instance : IsTrans (Date × List ℚ) dmLE := ⟨fun a b c => dateLE_trans a.1 b.1 c.1⟩

theorem sortByDate_sorted (dm : DateMap) : List.Sorted dmLE (sortByDate dm) :=
  List.sorted_insertionSort dmLE dm

theorem sortByDate_perm (dm : DateMap) : List.Perm (sortByDate dm) dm :=
  List.perm_insertionSort dmLE dm

/-! ## Specialised lookup lemmas for the per-property dicts -/

theorem alistGet?_foldl_update_nil {κ ν π : Type} [DecidableEq κ] (key : π → κ) (f : π → ν)
    (l : List π) (k : κ) :
    alistGet? k (l.foldl (fun acc p => alistUpdate (key p) (f p) acc) []) =
      (l.reverse.find? (fun p => key p = k)).map f := by
  rw [alistGet?_foldl_update]
  rcases l.reverse.find? (fun p => key p = k) with _ | q
  · simp [alistGet?_nil]
  · simp

theorem alistGet?_buildUsages (env : CycleEnv) (props : List Property) (k : String) :
    alistGet? k (buildUsages env props) =
      (props.reverse.find? (fun p => p.consumer_id = k)).map
        (fun p => usageValOf env p.consumer_id) :=
  alistGet?_foldl_update_nil (fun p : Property => p.consumer_id)
    (fun p => usageValOf env p.consumer_id) props k

theorem alistGet?_buildRates (env : CycleEnv) (props : List Property) (k : String) :
    alistGet? k (buildRates env props) =
      (props.reverse.find? (fun p => p.consumer_id = k)).map
        (fun p => rateSummaryOf env p.consumer_id) :=
  alistGet?_foldl_update_nil (fun p : Property => p.consumer_id)
    (fun p => rateSummaryOf env p.consumer_id) props k

theorem alistGet?_buildElements (im : IcpMap) (props : List Property) (k : String) :
    alistGet? k (buildElements im props) =
      (props.reverse.find? (fun p => p.consumer_id = k)).map
        (fun p => elementsOut im p) :=
  alistGet?_foldl_update_nil (fun p : Property => p.consumer_id)
    (fun p => elementsOut im p) props k

/-- The last property (in insertion order) carrying a given consumer id. -/
theorem find?_consumer_of_mem (props : List Property) (prop : Property) (hp : prop ∈ props) :
    ∃ q, props.reverse.find? (fun p => p.consumer_id = prop.consumer_id) = some q ∧
      q.consumer_id = prop.consumer_id ∧ q ∈ props := by
  rcases hf : props.reverse.find? (fun p => p.consumer_id = prop.consumer_id) with _ | q
  · rw [List.find?_eq_none] at hf
    have hcon := hf prop (List.mem_reverse.mpr hp)
    simp at hcon
  · exact ⟨q, hf, by simpa using List.find?_some hf,
      List.mem_reverse.mp (List.mem_of_find?_eq_some hf)⟩

/-- A property whose connection number keys nothing in the ICP mapping gets
the empty element map. -/
theorem elementsOut_eq_nil (im : IcpMap) (prop : Property)
    (h : ∀ s, prop.connection_number = PyVal.vstr s → alistGet? s im = none) :
    elementsOut im prop = [] := by
  rcases hc : prop.connection_number with _ | s | n
  · simp [elementsOut, hc, pyTruthy]
  · by_cases hs : s = ""
    · simp [elementsOut, hc, hs, pyTruthy]
    · simp [elementsOut, hc, pyTruthy, hs, h s hc]
  · simp [elementsOut, hc, pyTruthy]

/-! ## Sample data for concrete instantiations -/

def sampleAccounts : AccountsPayload :=
  ⟨[{ number := .vstr "A-100", name := .vstr "Main",
      properties := [{ consumer_id := .vstr "1", name := .vstr "Home",
                       connection_number := .vstr "ICP1" }] }]⟩

/-- The flattening of `sampleAccounts`. -/
def sampleProperty : Property :=
  { consumer_id := "1", name := .vstr "Home", connection_number := .vstr "ICP1",
    account_number := .vstr "A-100", account_name := .vstr "Main" }

/-- A cycle in which the per-property fetches fail and the CSV download times
out, while login and the account list succeed. -/
def sampleEnv : CycleEnv :=
  { loginOutcome := .response 200 ()
    accountsOutcome := .response 200 sampleAccounts
    usageOutcome := fun _ => .error "boom"
    ratesOutcome := fun _ => .error (.timeoutErr "slow")
    webLoginOk := true
    csvOutcome := .raised (.timeoutErr "timed out")
    monthLabel := "Aug" }

/-- Same cycle, but the account-list request comes back with HTTP 401. -/
def sampleEnv401 : CycleEnv :=
  { sampleEnv with accountsOutcome := .response 401 sampleAccounts }

/-! ## Claim theorems -/

/-- **C1** — what the code actually does on an HTTP 401/403 account-list
response: the refresh cycle fails and no aggregate is returned, but the
`PowershopApiClientAuthenticationError` raised by `_verify_response_or_raise`
is caught by the broad `except Exception` of `_api_wrapper` and re-raised as
a plain `PowershopApiClientError` ("Something really wrong happened!"), so
the authentication subtype never reaches the caller. -/
theorem claim1_auth_error_rewrapped (env : CycleEnv) (a : AccountsPayload) (s : Nat)
    (hlogin : env.loginOutcome = HttpOutcome.response 200 ())
    (hacc : env.accountsOutcome = HttpOutcome.response s a)
    (hs : s = 401 ∨ s = 403) :
    asyncGetData env =
      .error (.psGeneral "Something really wrong happened! - Invalid credentials") := by
  unfold asyncGetData asyncGetAccounts
  rw [hlogin, hacc]
  rcases hs with hs | hs <;> subst hs <;> rfl

/-- Witness for **C1**: the wrapped general error on a concrete 401 cycle. -/
theorem claim1_auth_error_rewrapped_witness :
    asyncGetData sampleEnv401 =
      .error (.psGeneral "Something really wrong happened! - Invalid credentials") :=
  claim1_auth_error_rewrapped sampleEnv401 sampleAccounts 401 rfl rfl (Or.inl rfl)

/-- **C2** — counterexample: a data line with enough fields whose date cell
matches neither accepted format is not emitted; the `ValueError` escapes and
aborts the entire parse, losing the following well-formed row as well. -/
theorem claim2_counterexample :
    parseReport
        ("ICP\tMeter number\tMeter element\tDate\t00:30\nA1\tM1\tE1\tnodate\t1.0\nA2\tM2\tE2\t05/08/2025\t2.0").data =
      .error (.otherExc "ValueError: time data does not match date format") := by
  decide

/-- **C2** (amended) — lines with too few fields are dropped entirely without
aborting the parse; for the other lines, a raising cell (an out-of-range
column index or a date matching neither format) aborts the whole parse and
discards every row, while a successfully parsed line prepends its row to the
result of the remaining lines. -/
theorem claim2_row_errors_abort_parse :
    (∀ (idx : ColIdx) (ln : List Char) (rest : List (List Char)),
        (partsOfLine ln).length ≤ idx.idxDate + 1 →
        parseDataLines idx (ln :: rest) = parseDataLines idx rest) ∧
    (∀ (idx : ColIdx) (ln : List Char) (rest : List (List Char)) (e : PyExc),
        parseDataLine idx ln = .error e →
        parseDataLines idx (ln :: rest) = .error e) ∧
    (∀ (idx : ColIdx) (ln : List Char) (rest : List (List Char)) (row : ReportRow),
        parseDataLine idx ln = .ok (some row) →
        parseDataLines idx (ln :: rest) =
          (parseDataLines idx rest).map (fun rows => row :: rows)) := by
  refine ⟨?_, ?_, ?_⟩
  · intro idx ln rest h
    have hline : parseDataLine idx ln = .ok none := by
      simp only [parseDataLine]
      rw [if_pos h]
    simp only [parseDataLines, hline]
  · intro idx ln rest e h
    simp only [parseDataLines, h]
  · intro idx ln rest row h
    simp only [parseDataLines, h]
    rcases hrest : parseDataLines idx rest with e | rows <;> simp [hrest, Except.map]

/-- Witness for **C2** (amended): the three behaviours on concrete lines. -/
theorem claim2_row_errors_abort_parse_witness :
    parseDataLines ⟨0, 1, 2, 3⟩ ["a,b".data, "A,M,E,05/08/2025,".data] =
      parseDataLines ⟨0, 1, 2, 3⟩ ["A,M,E,05/08/2025,".data] ∧
    parseDataLines ⟨0, 1, 2, 3⟩ ["A,M,E,bad,1".data, "A,M,E,05/08/2025,".data] =
      .error (.otherExc "ValueError: time data does not match date format") ∧
    parseDataLines ⟨0, 1, 2, 3⟩ ["A,M,E,05/08/2025,".data] =
      (parseDataLines ⟨0, 1, 2, 3⟩ []).map
        (fun rows => (⟨"A", "M", "E", ⟨2025, 8, 5⟩, List.replicate 48 0⟩ : ReportRow) :: rows) :=
  ⟨claim2_row_errors_abort_parse.1 ⟨0, 1, 2, 3⟩ "a,b".data ["A,M,E,05/08/2025,".data]
      (by decide),
   claim2_row_errors_abort_parse.2.1 ⟨0, 1, 2, 3⟩ "A,M,E,bad,1".data
      ["A,M,E,05/08/2025,".data] (.otherExc "ValueError: time data does not match date format")
      (by decide),
   claim2_row_errors_abort_parse.2.2 ⟨0, 1, 2, 3⟩ "A,M,E,05/08/2025,".data []
      ⟨"A", "M", "E", ⟨2025, 8, 5⟩, List.replicate 48 0⟩ (by decide)⟩

/-- **C3** — what the code actually does to a property with no
`consumer_id` key: `str(prop.get("consumer_id"))` is the truthy string
`"None"`, so the guard `if not consumer_id: continue` never fires and the
property is flattened with consumer id `"None"` instead of being skipped. -/
theorem claim3_missing_consumer_id_not_skipped :
    (flattenProperties
        ⟨[{ number := .vstr "A-100", name := .vstr "Main",
            properties := [{ consumer_id := .vnone, name := .vstr "Home",
                             connection_number := .vstr "ICP1" }] }]⟩).map
      (fun p => p.consumer_id) = ["None"] := by
  decide

/-- **C4** — every emitted report row has exactly 48 interval values; the
cell loop skips blank cells and coerces non-numeric cells to `0.0` without
raising; short value lists are zero-padded and long ones truncated to 48
(`(vs ++ replicate 48 0).take 48` captures both). -/
theorem claim4_values_always_48 :
    (∀ (text : List Char) (rows : List ReportRow),
        parseReport text = .ok rows → ∀ r ∈ rows, r.values_kwh.length = 48) ∧
    (∀ cells : List (List Char),
        parseCells cells =
          cells.filterMap
            (fun c =>
              if pyStrip c = [] then none
              else some ((parseFloatChars? (pyStrip c)).getD 0))) ∧
    (∀ vs : List ℚ, fitTo48 vs = (vs ++ List.replicate 48 0).take 48) :=
  ⟨parseReport_values_length, parseCells_eq_filterMap, fitTo48_eq_take⟩

/-- Witness for **C4**: a one-row report whose row is padded to 48 values. -/
theorem claim4_values_always_48_witness :
    parseReport ("ICP\tMeter number\tMeter element\tDate\t00:30\nA1\tM1\tE1\t05/08/2025\t").data =
      .ok [⟨"A1", "M1", "E1", ⟨2025, 8, 5⟩, List.replicate 48 0⟩] ∧
    (⟨"A1", "M1", "E1", ⟨2025, 8, 5⟩, List.replicate 48 0⟩ : ReportRow).values_kwh.length = 48 :=
  ⟨by decide,
   claim4_values_always_48.1
     ("ICP\tMeter number\tMeter element\tDate\t00:30\nA1\tM1\tE1\t05/08/2025\t").data
     [⟨"A1", "M1", "E1", ⟨2025, 8, 5⟩, List.replicate 48 0⟩] (by decide) _ (by decide)⟩

/-- **C5** — per-property usage isolation: in the aggregate, every listed
property has a `usages` entry determined solely by its own fetch outcome —
the fetched payload on success, the `{"error": str(ex)}` marker on failure —
so one property's failure neither removes another property's entry nor aborts
the cycle (the aggregate below is total). -/
theorem claim5_usage_isolation (accounts : AccountsPayload) (env : CycleEnv) (prop : Property)
    (hp : prop ∈ (asyncGetDataCore accounts env).properties) :
    alistGet? prop.consumer_id (asyncGetDataCore accounts env).usages =
      some (match env.usageOutcome prop.consumer_id with
            | .ok u => UsageVal.payload u
            | .error msg => UsageVal.errorMarker msg) := by
  have hp2 : prop ∈ flattenProperties accounts := hp
  obtain ⟨q, hq, hkey, _⟩ := find?_consumer_of_mem (flattenProperties accounts) prop hp2
  have h : alistGet? prop.consumer_id (asyncGetDataCore accounts env).usages =
      ((flattenProperties accounts).reverse.find?
          (fun p => p.consumer_id = prop.consumer_id)).map
        (fun p => usageValOf env p.consumer_id) :=
    alistGet?_buildUsages env (flattenProperties accounts) prop.consumer_id
  rw [h, hq]
  simp [hkey, usageValOf]

/-- Witness for **C5**: a cycle whose usage fetch raises gives this property
the error marker. -/
theorem claim5_usage_isolation_witness :
    alistGet? "1" (asyncGetDataCore sampleAccounts sampleEnv).usages =
      some (UsageVal.errorMarker "boom") :=
  claim5_usage_isolation sampleAccounts sampleEnv sampleProperty (by decide)

/-- **C6** — the rate extraction rule: first special entry with a truthy
meter number, its rate for the current month label, first `incl` value
divided by 100; the spec scenario yields 25/100 = 0.25; any absence (or a
failed rates fetch) yields `none` rather than an exception. -/
theorem claim6_rate_extraction :
    extractSpecialIncl
        (.ok ⟨[⟨.vstr "", [⟨.vstr "Aug", [999]⟩]⟩,
               ⟨.vstr "M2", [⟨.vstr "Aug", [25]⟩]⟩]⟩) "Aug" = some ((25 : ℚ) / 100) ∧
    (25 : ℚ) / 100 = 1 / 4 ∧
    (∀ (payload : RatesPayload) (label : String) (fw : SpecialEntry) (rate : RateEntry)
        (v : ℚ) (rest : List ℚ),
        firstWithMeter payload.special = some fw →
        monthRate? fw label = some rate →
        rate.incl = v :: rest →
        extractSpecialIncl (.ok payload) label = some (v / 100)) ∧
    (∀ (specials : List SpecialEntry) (fw : SpecialEntry),
        firstWithMeter specials = some fw →
        pyTruthy fw.meter_number = true ∧ fw ∈ specials) ∧
    (∀ (e : PyExc) (label : String), extractSpecialIncl (.error e) label = none) ∧
    (∀ (payload : RatesPayload) (label : String),
        firstWithMeter payload.special = none →
        extractSpecialIncl (.ok payload) label = none) := by
  refine ⟨rfl, by norm_num, ?_, ?_, fun e label => rfl, ?_⟩
  · intro payload label fw rate v rest h1 h2 h3
    simp [extractSpecialIncl, h1, h2, h3]
  · intro specials fw h
    unfold firstWithMeter at h
    exact ⟨List.find?_some (p := fun item : SpecialEntry => pyTruthy item.meter_number) h,
      List.mem_of_find?_eq_some h⟩
  · intro payload label h
    simp [extractSpecialIncl, h]

/-- Witness for **C6**: the general rule applied to the scenario payload. -/
theorem claim6_rate_extraction_witness :
    extractSpecialIncl
        (.ok ⟨[⟨.vstr "", [⟨.vstr "Aug", [999]⟩]⟩,
               ⟨.vstr "M2", [⟨.vstr "Aug", [25]⟩]⟩]⟩) "Aug" = some ((25 : ℚ) / 100) ∧
    (pyTruthy (PyVal.vstr "M2") = true ∧
      (⟨.vstr "M2", [⟨.vstr "Aug", [25]⟩]⟩ : SpecialEntry) ∈
        [⟨.vstr "", [⟨.vstr "Aug", [999]⟩]⟩, ⟨.vstr "M2", [⟨.vstr "Aug", [25]⟩]⟩]) :=
  ⟨claim6_rate_extraction.2.2.1 ⟨[⟨.vstr "", [⟨.vstr "Aug", [999]⟩]⟩,
        ⟨.vstr "M2", [⟨.vstr "Aug", [25]⟩]⟩]⟩ "Aug"
      ⟨.vstr "M2", [⟨.vstr "Aug", [25]⟩]⟩ ⟨.vstr "Aug", [25]⟩ 25 [] (by decide) (by decide) rfl,
   claim6_rate_extraction.2.2.2.1 [⟨.vstr "", [⟨.vstr "Aug", [999]⟩]⟩,
      ⟨.vstr "M2", [⟨.vstr "Aug", [25]⟩]⟩] ⟨.vstr "M2", [⟨.vstr "Aug", [25]⟩]⟩ (by decide)⟩

/-- **C7** — element-map isolation: when the report fetch/parse fails, every
listed property's `elements` entry is the empty map; likewise a property
whose connection number keys nothing in the parsed report gets the empty map
— in both cases the entry exists and carries no error. -/
theorem claim7_elements_isolation :
    (∀ (accounts : AccountsPayload) (env : CycleEnv) (e : PyExc),
        asyncGetUsageReport env.webLoginOk env.csvOutcome = .error e →
        ∀ prop ∈ (asyncGetDataCore accounts env).properties,
          alistGet? prop.consumer_id (asyncGetDataCore accounts env).elements = some []) ∧
    (∀ (accounts : AccountsPayload) (env : CycleEnv) (prop : Property),
        prop ∈ (asyncGetDataCore accounts env).properties →
        (∀ q ∈ (asyncGetDataCore accounts env).properties,
          q.consumer_id = prop.consumer_id →
          ∀ s, q.connection_number = PyVal.vstr s →
            alistGet? s (buildIcpMap (effectiveCsvRows env)) = none) →
        alistGet? prop.consumer_id (asyncGetDataCore accounts env).elements = some []) := by
  constructor
  · intro accounts env e he prop hp
    have hp2 : prop ∈ flattenProperties accounts := hp
    obtain ⟨q, hq, hkey, hqmem⟩ := find?_consumer_of_mem (flattenProperties accounts) prop hp2
    have him : effectiveCsvRows env = [] := by
      unfold effectiveCsvRows
      rw [he]
    have h : alistGet? prop.consumer_id (asyncGetDataCore accounts env).elements =
        ((flattenProperties accounts).reverse.find?
            (fun p => p.consumer_id = prop.consumer_id)).map
          (fun p => elementsOut (buildIcpMap (effectiveCsvRows env)) p) :=
      alistGet?_buildElements (buildIcpMap (effectiveCsvRows env))
        (flattenProperties accounts) prop.consumer_id
    rw [h, hq]
    have hout : elementsOut (buildIcpMap (effectiveCsvRows env)) q = [] := by
      rw [him]
      exact elementsOut_eq_nil [] q (fun s _ => alistGet?_nil s)
    simp [hout]
  · intro accounts env prop hp hnone
    have hp2 : prop ∈ flattenProperties accounts := hp
    obtain ⟨q, hq, hkey, hqmem⟩ := find?_consumer_of_mem (flattenProperties accounts) prop hp2
    have h : alistGet? prop.consumer_id (asyncGetDataCore accounts env).elements =
        ((flattenProperties accounts).reverse.find?
            (fun p => p.consumer_id = prop.consumer_id)).map
          (fun p => elementsOut (buildIcpMap (effectiveCsvRows env)) p) :=
      alistGet?_buildElements (buildIcpMap (effectiveCsvRows env))
        (flattenProperties accounts) prop.consumer_id
    rw [h, hq]
    have hout : elementsOut (buildIcpMap (effectiveCsvRows env)) q = [] :=
      elementsOut_eq_nil _ q (hnone q hqmem hkey)
    simp [hout]

/-- Witness for **C7**: the timed-out CSV download of the sample cycle leaves
the sample property with an empty element map, under both parts. -/
theorem claim7_elements_isolation_witness :
    alistGet? "1" (asyncGetDataCore sampleAccounts sampleEnv).elements = some [] ∧
    alistGet? "1" (asyncGetDataCore sampleAccounts sampleEnv).elements = some [] :=
  ⟨claim7_elements_isolation.1 sampleAccounts sampleEnv
      (.psComm "Error downloading usage report - timed out") (by decide)
      sampleProperty (by decide),
   claim7_elements_isolation.2 sampleAccounts sampleEnv sampleProperty (by decide)
      (fun q _ _ s _ => alistGet?_nil s)⟩

/-- **C8** — series construction: (1) the intermediate mapping is
last-write-wins per ICP+element+date (the stored values are those of the last
matching parsed row, with no merging); (2) each element's day list is sorted
by ascending date; (3) every emitted day entry comes from a mapping entry of
that element, its dates formatted from the entry's date and each value equal
to the source kWh value times 1000, rounded half-even to 3 decimal places. -/
theorem claim8_series_construction :
    (∀ (rows : List ReportRow) (icp elem : String) (d : Date),
        icp ≠ "" → elem ≠ "" →
        icpMapLookup (buildIcpMap rows) icp elem d =
          (rows.reverse.find?
              (fun r => r.icp = icp ∧ r.element = elem ∧ r.date = d)).map
            (fun r => r.values_kwh)) ∧
    (∀ dm : DateMap, List.Sorted dmLE (sortByDate dm)) ∧
    (∀ (dm : DateMap) (ds : DaySeries), ds ∈ (seriesOfDateMap dm).usages →
        ∃ p ∈ dm, ds.date = formatDate p.1 ∧ ds.iso8601_date = formatDate p.1 ∧
          ds.usage = p.2.map (fun v => pyRound (v * 1000) 3)) := by
  refine ⟨icpMapLookup_buildIcpMap, sortByDate_sorted, ?_⟩
  intro dm ds hds
  simp only [seriesOfDateMap] at hds
  rcases List.mem_map.mp hds with ⟨p, hp, hds2⟩
  refine ⟨p, (sortByDate_perm dm).mem_iff.mp hp, ?_, ?_, ?_⟩ <;>
    rw [← hds2] <;> simp [kwhToWh]

/-- Witness for **C8**: a duplicate-keyed pair of rows resolves to the later
row's values, and the sample day entry traces back to its mapping entry. -/
theorem claim8_series_construction_witness :
    icpMapLookup
        (buildIcpMap
          [⟨"A", "M", "E", ⟨2025, 8, 5⟩, [1]⟩, ⟨"A", "M", "E", ⟨2025, 8, 5⟩, [2]⟩])
        "A" "E" ⟨2025, 8, 5⟩ = some [2] ∧
    (∃ p ∈ ([(⟨2025, 8, 5⟩, ([] : List ℚ))] : DateMap),
        ("2025-08-05" : String) = formatDate p.1 ∧ ("2025-08-05" : String) = formatDate p.1 ∧
        ([] : List ℚ) = p.2.map (fun v => pyRound (v * 1000) 3)) :=
  ⟨(claim8_series_construction.1
      [⟨"A", "M", "E", ⟨2025, 8, 5⟩, [1]⟩, ⟨"A", "M", "E", ⟨2025, 8, 5⟩, [2]⟩]
      "A" "E" ⟨2025, 8, 5⟩ (by decide) (by decide)).trans (by decide),
   claim8_series_construction.2.2 [(⟨2025, 8, 5⟩, ([] : List ℚ))]
     ⟨"2025-08-05", "2025-08-05", []⟩ (by decide)⟩

/-- **C9** — key consistency: for every consumer id, membership in the
`usages`, `rates` and `elements` dicts coincides exactly with occurrence in
the aggregate's property list. -/
theorem claim9_key_consistency (accounts : AccountsPayload) (env : CycleEnv) (k : String) :
    ((alistGet? k (asyncGetDataCore accounts env).usages).isSome ↔
      k ∈ (asyncGetDataCore accounts env).properties.map (fun p => p.consumer_id)) ∧
    ((alistGet? k (asyncGetDataCore accounts env).rates).isSome ↔
      k ∈ (asyncGetDataCore accounts env).properties.map (fun p => p.consumer_id)) ∧
    ((alistGet? k (asyncGetDataCore accounts env).elements).isSome ↔
      k ∈ (asyncGetDataCore accounts env).properties.map (fun p => p.consumer_id)) :=
  ⟨alistGet?_foldl_update_isSome (fun p : Property => p.consumer_id)
      (fun p => usageValOf env p.consumer_id) (flattenProperties accounts) k,
   alistGet?_foldl_update_isSome (fun p : Property => p.consumer_id)
      (fun p => rateSummaryOf env p.consumer_id) (flattenProperties accounts) k,
   alistGet?_foldl_update_isSome (fun p : Property => p.consumer_id)
      (fun p => elementsOut (buildIcpMap (effectiveCsvRows env)) p)
      (flattenProperties accounts) k⟩

/-- **C10** — the aggregate carries a fifth key `raw_accounts` holding the
account-list payload unmodified. -/
theorem claim10_raw_accounts (env : CycleEnv) (agg : Aggregate) (status : Nat)
    (body : AccountsPayload) (hacc : env.accountsOutcome = HttpOutcome.response status body)
    (hok : asyncGetData env = .ok agg) : agg.raw_accounts = body := by
  unfold asyncGetData at hok
  rcases hacc2 : asyncGetAccounts env with e | accounts
  · rw [hacc2] at hok
    exact absurd hok (by simp)
  · rw [hacc2] at hok
    injection hok with h2
    subst h2
    unfold asyncGetAccounts at hacc2
    rw [hacc] at hacc2
    split at hacc2
    · exact absurd hacc2 (by simp)
    · simp only [apiWrapper] at hacc2
      split at hacc2
      · exact absurd hacc2 (by simp)
      · injection hacc2 with h3
        subst h3
        rfl

/-- Witness for **C10**: the sample cycle's aggregate returns the account
payload verbatim. -/
theorem claim10_raw_accounts_witness :
    (asyncGetDataCore sampleAccounts sampleEnv).raw_accounts = sampleAccounts :=
  claim10_raw_accounts sampleEnv (asyncGetDataCore sampleAccounts sampleEnv) 200
    sampleAccounts rfl rfl

end Powershop
